import Mathlib

/-!
# Verification of the vice main event loop (src/main.go)

This file gives a shallow embedding of the per-frame orchestration loop of
vice's `main` function (src/main.go, lines 176-260) and proves properties of
it: the fixed per-iteration phase order, the update-propagation discipline for
the shared `controlUpdates` batch, and the shutdown negotiation driven by the
platform's should-stop flag, the `wantExit` flag and the modal
disconnect-confirmation dialog.

The loop body is translated phase by phase.  Collaborator calls are recorded
as events in a per-frame trace; the mutable state the loop body reads and
writes (the global `server`, the `wantExit` flag, the platform's should-stop
flag, the count of active modal dialogs, the pending records in
`controlUpdates`, `frameIndex`, and the persisted fields of `globalConfig`)
is carried in an explicit `LoopState`.  Everything the environment decides in
one iteration (whether `ProcessEvents` delivers a window-close event, how
many records `SendUpdates`/`GetUpdates` merge into the batch, how many
records the draw calls record, whether the operator resolves a pending modal
dialog, and the current window geometry) is a `FrameInput`.
-/

namespace Vice

/-- The persisted fields of `globalConfig` that the exit path of the loop
overwrites (src/main.go lines 250-252).  The stored values are opaque to the
loop, so they are modelled as natural-number tokens. -/
structure GlobalConfig where
  imguiSettings : Nat
  initialWindowSize : Nat
  initialWindowPosition : Nat
deriving DecidableEq, Repr

/-- One collaborator call made by the loop body.  The three update consumers
carry the number of records in the batch they are handed, so that "invoked
with the same batch" is visible in the trace. -/
inductive Event where
  | setWindowTitle
  | processEvents
  | sendUpdates
  | getUpdates
  | positionConfigUpdate (records : Nat)
  | wmShareUpdates (records : Nat)
  | audioProcessUpdates (records : Nat)
  | resetUpdates
  | newFrame
  | drawPanes
  | drawUI
  | disconnect
  | cancelShouldStop
  | renderImgui
  | postRender
  | logStats
  | showDialog
  | saveImGuiSettings
  | saveWindowSize
  | saveWindowPosition
  | promptToSave
deriving DecidableEq, Repr

/-- The mutable state the loop body of `main` reads and writes across
iterations. -/
structure LoopState where
  /-- Whether the global `server` is a connected session (`server.Connected()`);
  a fresh `DisconnectedATCServer` reports false. -/
  connected : Bool
  /-- The `wantExit` local of `main` (src/main.go line 174). -/
  wantExit : Bool
  /-- The platform's close-requested flag: set by a window-close event during
  `ProcessEvents`, persistent until `CancelShouldStop` clears it, read by
  `platform.ShouldStop()`. -/
  shouldStop : Bool
  /-- The number of entries in `ui.activeModalDialogs`; the loop itself only
  ever adds the disconnect-confirmation dialog. -/
  activeModalDialogs : Nat
  /-- The number of pending records in the shared `controlUpdates` batch. -/
  batch : Nat
  /-- The `frameIndex` local of `main` (src/main.go line 173). -/
  frameIndex : Nat
  /-- The persisted fields of `globalConfig`. -/
  config : GlobalConfig
deriving DecidableEq, Repr

/-- What the environment (operator, network, window system) contributes to a
single iteration of the loop. -/
structure FrameInput where
  /-- Whether `ProcessEvents` delivers a window-close event this frame,
  setting the platform's should-stop flag. -/
  closeRequested : Bool
  /-- Records merged into `controlUpdates` by `SendUpdates`/`GetUpdates`. -/
  networkRecords : Nat
  /-- Records recorded into `controlUpdates` by the draw calls this frame. -/
  drawRecords : Nat
  /-- If a modal dialog is active, the operator's resolution of it during
  `drawUI` this frame: `some true` is yes, `some false` is no, `none` means
  the dialog stays open. -/
  dialogChoice : Option Bool
  /-- The value `imgui.SaveIniSettingsToMemory()` would return this frame. -/
  curImGuiSettings : Nat
  /-- The value `platform.WindowSize()` would return this frame. -/
  curWindowSize : Nat
  /-- The value `platform.WindowPosition()` would return this frame. -/
  curWindowPosition : Nat
deriving DecidableEq, Repr

/-- The outcome of one iteration of the loop body: the successor state, the
trace of collaborator calls made during the iteration, and whether the
iteration ended in the `break` at src/main.go line 258. -/
structure StepResult where
  state : LoopState
  trace : List Event
  exits : Bool
deriving DecidableEq, Repr

/-- The number of records in `controlUpdates` at the moment the propagation
phase evaluates `controlUpdates.NoUpdates()` (src/main.go line 196): the
records left from the previous frame's draw calls plus whatever the send and
receive phases of this frame merged in. -/
def batchAtPropagation (s : LoopState) (i : FrameInput) : Nat :=
  s.batch + i.networkRecords

/-- The propagation phase (src/main.go lines 196-204): if the batch is
non-empty, hand it to `positionConfig.Update`, `wmShareUpdates` and
`audioProcessUpdates` in that order and then call `controlUpdates.Reset()`;
if it is empty, make none of the four calls.  Returns the trace of the phase
and the batch contents remaining after it. -/
def propagationPhase (b : Nat) : List Event × Nat :=
  if b ≠ 0 then
    ([.positionConfigUpdate b, .wmShareUpdates b, .audioProcessUpdates b, .resetUpdates], 0)
  else
    ([], b)

/-- The result of the modal-dialog handling inside `drawUI`: the session
flag, the `wantExit` flag, the platform should-stop flag and the dialog count
after it, plus the trace of callback effects. -/
structure DialogOutcome where
  connected : Bool
  wantExit : Bool
  shouldStop : Bool
  dialogs : Nat
  trace : List Event
deriving DecidableEq, Repr

/-- Modelled from the spec: the UI collaborator that owns
`ui.activeModalDialogs` is not under src/; per the spec, the modal's
resolution is just another piece of UI state checked each iteration while the
loop continues to render and poll input.  When the operator resolves the
disconnect-confirmation dialog during `drawUI`, the UI invokes the callbacks
`main` installed (src/main.go lines 238-245): `ok` calls `server.Disconnect()`
and replaces `server` with a fresh `DisconnectedATCServer`; `notok` calls
`platform.CancelShouldStop()` and clears `wantExit`.  A dialog left open, or
the absence of any dialog, changes nothing. -/
def resolveDialogs (connected wantExit stop : Bool) (dialogs : Nat)
    (choice : Option Bool) : DialogOutcome :=
  if dialogs = 0 then
    ⟨connected, wantExit, stop, dialogs, []⟩
  else
    match choice with
    | some true => ⟨false, wantExit, stop, dialogs - 1, [.disconnect]⟩
    | some false => ⟨connected, false, false, dialogs - 1, [.cancelShouldStop]⟩
    | none => ⟨connected, wantExit, stop, dialogs, []⟩

/-- The telemetry phase (src/main.go lines 225-227): log statistics every
600th frame in developer mode and every 3600th frame regardless. -/
def telemetryPhase (devmode : Bool) (frameIndex : Nat) : List Event :=
  if (devmode && frameIndex % 600 == 0) || frameIndex % 3600 == 0 then
    [.logStats]
  else
    []

/-- The outcome of the exit-check at the bottom of the loop body. -/
structure ExitOutcome where
  wantExit : Bool
  dialogs : Nat
  config : GlobalConfig
  trace : List Event
  exits : Bool
deriving DecidableEq, Repr

/-- The exit-check phase (src/main.go lines 230-260).  If the platform wants
to stop and `wantExit` is not yet set: set `wantExit`; if the session is
connected, open the disconnect-confirmation dialog; unconditionally overwrite
the stored ImGui settings, window size and window position with the current
values and call `globalConfig.PromptToSaveIfChanged`.  If the platform wants
to stop, `wantExit` is already set and no modal dialog remains active, break
out of the loop. -/
def exitCheckPhase (connected wantExit stop : Bool) (dialogs : Nat)
    (cfg : GlobalConfig) (i : FrameInput) : ExitOutcome :=
  if stop then
    if !wantExit then
      { wantExit := true
        dialogs := if connected then dialogs + 1 else dialogs
        config := { imguiSettings := i.curImGuiSettings
                    initialWindowSize := i.curWindowSize
                    initialWindowPosition := i.curWindowPosition }
        trace := (if connected then [.showDialog] else []) ++
          [.saveImGuiSettings, .saveWindowSize, .saveWindowPosition, .promptToSave]
        exits := false }
    else if dialogs = 0 then
      { wantExit := wantExit, dialogs := dialogs, config := cfg, trace := [], exits := true }
    else
      { wantExit := wantExit, dialogs := dialogs, config := cfg, trace := [], exits := false }
  else
    { wantExit := wantExit, dialogs := dialogs, config := cfg, trace := [], exits := false }

/-- One iteration of the main event loop (src/main.go lines 176-260),
phase by phase in the source's order: window-title refresh, input pull
(`ProcessEvents`, which may set the should-stop flag), send
(`positionConfig.SendUpdates`), receive (`server.GetUpdates`), propagation of
the update batch, draw (`NewFrame`, `wmDrawPanes`, `drawUI` with any modal
dialog resolution inside it, `RenderImgui`), present (`PostRender`), periodic
telemetry, increment of `frameIndex`, and the exit-check. -/
def viceStep (devmode : Bool) (s : LoopState) (i : FrameInput) : StepResult :=
  let stop1 := s.shouldStop || i.closeRequested
  let b1 := batchAtPropagation s i
  let prop := propagationPhase b1
  let dlg := resolveDialogs s.connected s.wantExit stop1 s.activeModalDialogs i.dialogChoice
  let tele := telemetryPhase devmode s.frameIndex
  let ex := exitCheckPhase dlg.connected dlg.wantExit dlg.shouldStop dlg.dialogs s.config i
  { state := { connected := dlg.connected
               wantExit := ex.wantExit
               shouldStop := dlg.shouldStop
               activeModalDialogs := ex.dialogs
               batch := prop.2 + i.drawRecords
               frameIndex := s.frameIndex + 1
               config := ex.config }
    trace := [.setWindowTitle, .processEvents, .sendUpdates, .getUpdates] ++ prop.1 ++
      [.newFrame, .drawPanes, .drawUI] ++ dlg.trace ++ [.renderImgui, .postRender] ++
      tele ++ ex.trace
    exits := ex.exits }

/-- The result of running the loop over a list of frame inputs: the
concatenated trace, the final state, and whether the loop broke out. -/
structure RunResult where
  trace : List Event
  final : LoopState
  exited : Bool
deriving DecidableEq, Repr

/-- Run the loop over a list of per-frame environment inputs, stopping when
an iteration breaks out. -/
def viceRun (devmode : Bool) : LoopState → List FrameInput → RunResult
  | s, [] => ⟨[], s, false⟩
  | s, i :: is =>
    let r := viceStep devmode s i
    if r.exits then ⟨r.trace, r.state, true⟩
    else
      let rest := viceRun devmode r.state is
      ⟨r.trace ++ rest.trace, rest.final, rest.exited⟩

/-- The position of an event's phase within the fixed per-iteration order of
the spec: title refresh, input pull, send, receive, propagation (state first,
then panes, then audio, then reset), draw (panes then the UI overlay, with
any dialog callbacks inside it, then submission), present, telemetry,
exit-check (dialog creation, then the three configuration writes, then the
prompt-to-save call). -/
def phaseRank : Event → Nat
  | .setWindowTitle => 10
  | .processEvents => 20
  | .sendUpdates => 30
  | .getUpdates => 40
  | .positionConfigUpdate _ => 50
  | .wmShareUpdates _ => 51
  | .audioProcessUpdates _ => 52
  | .resetUpdates => 53
  | .newFrame => 60
  | .drawPanes => 61
  | .drawUI => 62
  | .disconnect => 63
  | .cancelShouldStop => 63
  | .renderImgui => 64
  | .postRender => 70
  | .logStats => 80
  | .showDialog => 90
  | .saveImGuiSettings => 91
  | .saveWindowSize => 92
  | .saveWindowPosition => 93
  | .promptToSave => 94

/-- Whether an event is one of the three update-batch consumer calls. -/
def isConsumerCall : Event → Bool
  | .positionConfigUpdate _ => true
  | .wmShareUpdates _ => true
  | .audioProcessUpdates _ => true
  | _ => false

/-- Whether an event is the batch reset call. -/
def isReset : Event → Bool
  | .resetUpdates => true
  | _ => false

/-- Whether an event is the creation of the disconnect-confirmation dialog. -/
def isShowDialog : Event → Bool
  | .showDialog => true
  | _ => false

/-- Whether an event is the session disconnect call. -/
def isDisconnect : Event → Bool
  | .disconnect => true
  | _ => false

/-- Whether an event is the prompt-to-save persistence call. -/
def isPrompt : Event → Bool
  | .promptToSave => true
  | _ => false

/-!
## Helper lemmas about a single iteration

Each lemma characterises one kind of iteration of the loop body; the claim
theorems below compose them across frames.
-/

/-- The iteration in which a close request is first observed: `wantExit` is
still clear, no modal dialog is active, and the platform's should-stop flag
is (or becomes) set.  The iteration does not break out; it sets `wantExit`,
opens the confirmation dialog exactly when the session is connected,
overwrites the persisted configuration fields with the current values and
calls the prompt-to-save path exactly once. -/
lemma step_firstClose (d : Bool) (s : LoopState) (i : FrameInput)
    (hw : s.wantExit = false) (hd : s.activeModalDialogs = 0)
    (hstop : (s.shouldStop || i.closeRequested) = true) :
    (viceStep d s i).exits = false ∧
    (viceStep d s i).state.connected = s.connected ∧
    (viceStep d s i).state.wantExit = true ∧
    (viceStep d s i).state.shouldStop = true ∧
    (viceStep d s i).state.activeModalDialogs = (if s.connected then 1 else 0) ∧
    (viceStep d s i).state.config =
      ⟨i.curImGuiSettings, i.curWindowSize, i.curWindowPosition⟩ ∧
    (viceStep d s i).trace.countP isPrompt = 1 ∧
    (viceStep d s i).trace.countP isShowDialog = (if s.connected then 1 else 0) ∧
    (viceStep d s i).trace.countP isDisconnect = 0 ∧
    Event.saveImGuiSettings ∈ (viceStep d s i).trace ∧
    Event.saveWindowSize ∈ (viceStep d s i).trace ∧
    Event.saveWindowPosition ∈ (viceStep d s i).trace := by
  simp only [viceStep, propagationPhase, resolveDialogs, telemetryPhase, exitCheckPhase]
  repeat' split
  all_goals simp_all [isPrompt, isShowDialog, isDisconnect]

/-- The iteration in which the operator resolves the pending
disconnect-confirmation dialog with yes: the `ok` callback disconnects the
session and replaces it with a fresh disconnected one, and the exit-check
then breaks out of the loop; no further persistence call happens in this
iteration. -/
lemma step_resolveYes (d : Bool) (s : LoopState) (i : FrameInput)
    (hw : s.wantExit = true) (hdl : s.activeModalDialogs = 1)
    (hstop : s.shouldStop = true) (hch : i.dialogChoice = some true) :
    (viceStep d s i).exits = true ∧
    (viceStep d s i).state.connected = false ∧
    (viceStep d s i).trace.countP isDisconnect = 1 ∧
    (viceStep d s i).trace.countP isPrompt = 0 ∧
    (viceStep d s i).trace.countP isShowDialog = 0 := by
  simp only [viceStep, propagationPhase, resolveDialogs, telemetryPhase, exitCheckPhase]
  repeat' split
  all_goals simp_all [isPrompt, isShowDialog, isDisconnect]

/-- The iteration in which the operator resolves the pending
disconnect-confirmation dialog with no: the `notok` callback cancels the
platform's should-stop flag and clears `wantExit`, the session is untouched,
and the iteration neither breaks out nor persists nor opens a dialog. -/
lemma step_resolveNo (d : Bool) (s : LoopState) (i : FrameInput)
    (hdl : s.activeModalDialogs = 1)
    (hch : i.dialogChoice = some false) :
    (viceStep d s i).exits = false ∧
    (viceStep d s i).state.connected = s.connected ∧
    (viceStep d s i).state.wantExit = false ∧
    (viceStep d s i).state.shouldStop = false ∧
    (viceStep d s i).state.activeModalDialogs = 0 ∧
    (viceStep d s i).state.config = s.config ∧
    (viceStep d s i).trace.countP isPrompt = 0 ∧
    (viceStep d s i).trace.countP isDisconnect = 0 ∧
    (viceStep d s i).trace.countP isShowDialog = 0 ∧
    Event.cancelShouldStop ∈ (viceStep d s i).trace := by
  simp only [viceStep, propagationPhase, resolveDialogs, telemetryPhase, exitCheckPhase]
  repeat' split
  all_goals simp_all [isPrompt, isShowDialog, isDisconnect]

/-- An iteration during which the confirmation dialog stays open: nothing
about the shutdown negotiation changes, no new dialog is created, nothing is
persisted, and the loop does not break out. -/
lemma step_pending (d : Bool) (s : LoopState) (i : FrameInput)
    (hw : s.wantExit = true) (hdl : s.activeModalDialogs ≠ 0)
    (hch : i.dialogChoice = none) :
    (viceStep d s i).exits = false ∧
    (viceStep d s i).state.connected = s.connected ∧
    (viceStep d s i).state.wantExit = true ∧
    (viceStep d s i).state.activeModalDialogs = s.activeModalDialogs ∧
    (viceStep d s i).state.shouldStop = (s.shouldStop || i.closeRequested) ∧
    (viceStep d s i).state.config = s.config ∧
    (viceStep d s i).trace.countP isShowDialog = 0 ∧
    (viceStep d s i).trace.countP isPrompt = 0 ∧
    (viceStep d s i).trace.countP isDisconnect = 0 := by
  simp only [viceStep, propagationPhase, resolveDialogs, telemetryPhase, exitCheckPhase]
  repeat' split
  all_goals simp_all [isPrompt, isShowDialog, isDisconnect]

/-- The iteration that actually breaks out: `wantExit` is set, the platform
still wants to stop, and no modal dialog remains.  Nothing further is
persisted and no dialog or disconnect happens in this iteration. -/
lemma step_exitFrame (d : Bool) (s : LoopState) (i : FrameInput)
    (hw : s.wantExit = true) (hs : s.shouldStop = true)
    (hd : s.activeModalDialogs = 0) :
    (viceStep d s i).exits = true ∧
    (viceStep d s i).trace.countP isPrompt = 0 ∧
    (viceStep d s i).trace.countP isShowDialog = 0 ∧
    (viceStep d s i).trace.countP isDisconnect = 0 := by
  simp only [viceStep, propagationPhase, resolveDialogs, telemetryPhase, exitCheckPhase]
  repeat' split
  all_goals simp_all [isPrompt, isShowDialog, isDisconnect]

/-- No iteration ever creates more than one disconnect-confirmation dialog. -/
lemma step_showDialog_le_one (d : Bool) (s : LoopState) (i : FrameInput) :
    (viceStep d s i).trace.countP isShowDialog ≤ 1 := by
  simp only [viceStep, propagationPhase, resolveDialogs, telemetryPhase, exitCheckPhase]
  repeat' split
  all_goals simp_all [isShowDialog]

/-- An iteration that begins with `wantExit` already set (a close attempt is
already underway) never creates a dialog. -/
lemma step_pendingAttempt_noDialog (d : Bool) (s : LoopState) (i : FrameInput)
    (hw : s.wantExit = true) :
    (viceStep d s i).trace.countP isShowDialog = 0 := by
  simp only [viceStep, propagationPhase, resolveDialogs, telemetryPhase, exitCheckPhase]
  repeat' split
  all_goals simp_all [isShowDialog]

/-- In every iteration, the three update consumers are invoked exactly when
the batch is non-empty at the propagation phase, and then exactly once
each. -/
lemma step_consumer_count (d : Bool) (s : LoopState) (i : FrameInput) :
    (viceStep d s i).trace.countP isConsumerCall =
      (if batchAtPropagation s i = 0 then 0 else 3) := by
  simp only [viceStep, propagationPhase, resolveDialogs, telemetryPhase, exitCheckPhase]
  repeat' split
  all_goals simp_all [isConsumerCall, batchAtPropagation]

/-- Every iteration polls input, pulls network updates, draws the UI and
presents the frame, whatever state the shutdown negotiation is in. -/
lemma step_always_events (d : Bool) (s : LoopState) (i : FrameInput) :
    Event.processEvents ∈ (viceStep d s i).trace ∧
    Event.getUpdates ∈ (viceStep d s i).trace ∧
    Event.drawUI ∈ (viceStep d s i).trace ∧
    Event.postRender ∈ (viceStep d s i).trace := by
  simp only [viceStep, propagationPhase, resolveDialogs, telemetryPhase, exitCheckPhase]
  repeat' split
  all_goals simp_all

/-!
## The claims
-/

/-- C1: every iteration of the frame loop executes its phases in the fixed
order title refresh, input pull, send, receive, update propagation, draw
(panes then the UI overlay), present, periodic telemetry, exit-check.
Formalised over the per-iteration call trace: mapping each recorded
collaborator call to its position in that fixed order (`phaseRank`) yields a
strictly increasing sequence in every iteration, whatever the state and
environment input, and the unconditional calls of every iteration (title,
input pull, send, receive, new frame, panes, UI overlay, submit, present)
always appear, in order.  Side effects being visible to the next phase holds
by construction of the embedding, which threads the state through the phases
in this same order. -/
theorem frame_phase_order (d : Bool) (s : LoopState) (i : FrameInput) :
    (((viceStep d s i).trace.map phaseRank).Chain' (· < ·)) ∧
    [10, 20, 30, 40, 60, 61, 62, 64, 70].Sublist
      ((viceStep d s i).trace.map phaseRank) := by
  simp only [viceStep, propagationPhase, resolveDialogs, telemetryPhase, exitCheckPhase]
  repeat' split
  all_goals simp [phaseRank]
  all_goals decide

/-- C2: whenever the update batch is non-empty at the start of the
propagation phase, the three consumers are invoked exactly once each and in
the fixed order OperatorState update, then pane shareUpdates, then audio
processUpdates, every one with that same batch, and the batch reset comes
only after all three: the trace holds each of the three consumer calls
carrying the full batch, exactly three consumer calls and one reset in
total, and their phase ranks 50, 51, 52, 53 occur as a sublist, which with
the uniqueness of each call pins the order state-then-panes-then-audio-then-
reset. -/
theorem propagation_fixed_order_same_batch (d : Bool) (s : LoopState) (i : FrameInput)
    (h : batchAtPropagation s i ≠ 0) :
    ((viceStep d s i).trace.countP isConsumerCall = 3 ∧
      Event.positionConfigUpdate (batchAtPropagation s i) ∈ (viceStep d s i).trace ∧
      Event.wmShareUpdates (batchAtPropagation s i) ∈ (viceStep d s i).trace ∧
      Event.audioProcessUpdates (batchAtPropagation s i) ∈ (viceStep d s i).trace) ∧
    (viceStep d s i).trace.countP isReset = 1 ∧
    [50, 51, 52, 53].Sublist ((viceStep d s i).trace.map phaseRank) := by
  simp only [viceStep, propagationPhase, resolveDialogs, telemetryPhase, exitCheckPhase]
  repeat' split
  all_goals simp_all [phaseRank, isConsumerCall, isReset, batchAtPropagation]
  all_goals decide

/-- Witness for C2: a frame whose batch holds two leftover records and three
records merged from the network invokes the consumers. -/
theorem propagation_fixed_order_same_batch_witness :
    batchAtPropagation ⟨true, false, false, 0, 2, 0, ⟨0, 0, 0⟩⟩ ⟨false, 3, 0, none, 0, 0, 0⟩ ≠ 0 ∧
    (viceStep false ⟨true, false, false, 0, 2, 0, ⟨0, 0, 0⟩⟩
        ⟨false, 3, 0, none, 0, 0, 0⟩).trace.countP isReset = 1 :=
  ⟨by decide,
    (propagation_fixed_order_same_batch false ⟨true, false, false, 0, 2, 0, ⟨0, 0, 0⟩⟩
      ⟨false, 3, 0, none, 0, 0, 0⟩ (by decide)).2.1⟩

/-- C3: if the update batch is empty at the start of the propagation phase,
that iteration makes none of the OperatorState update, pane shareUpdates or
audio processUpdates calls, and does not call reset on the batch. -/
theorem empty_batch_no_propagation (d : Bool) (s : LoopState) (i : FrameInput)
    (h : batchAtPropagation s i = 0) :
    (viceStep d s i).trace.countP isConsumerCall = 0 ∧
    Event.resetUpdates ∉ (viceStep d s i).trace := by
  simp only [viceStep, propagationPhase, resolveDialogs, telemetryPhase, exitCheckPhase]
  repeat' split
  all_goals simp_all [isConsumerCall, batchAtPropagation]

/-- Witness for C3: a frame with no leftover records and no network records
makes no consumer call. -/
theorem empty_batch_no_propagation_witness :
    batchAtPropagation ⟨true, false, false, 0, 0, 0, ⟨0, 0, 0⟩⟩ ⟨false, 0, 0, none, 0, 0, 0⟩ = 0 ∧
    (viceStep false ⟨true, false, false, 0, 0, 0, ⟨0, 0, 0⟩⟩
        ⟨false, 0, 0, none, 0, 0, 0⟩).trace.countP isConsumerCall = 0 :=
  ⟨by decide,
    (empty_batch_no_propagation false ⟨true, false, false, 0, 0, 0, ⟨0, 0, 0⟩⟩
      ⟨false, 0, 0, none, 0, 0, 0⟩ (by decide)).1⟩

/-- C9 counterexample: the claim says reset is called exactly once per
frame, in every frame; but in a frame whose batch is empty at the
propagation phase the code takes the fast path and never calls reset, so a
concrete empty-batch frame has zero reset calls. -/
theorem reset_skipped_on_empty_frame_cex :
    (viceStep false ⟨false, false, false, 0, 0, 0, ⟨0, 0, 0⟩⟩
        ⟨false, 0, 0, none, 0, 0, 0⟩).trace.countP isReset = 0 := by
  decide

/-- C9 (amended): the batch reset is called at most once per frame: exactly
once in every frame whose batch is non-empty at the propagation phase, where
it comes only after all three consumers have run, and not at all in a frame
whose batch is empty there. -/
theorem reset_exactly_when_batch_nonempty (d : Bool) (s : LoopState) (i : FrameInput) :
    (viceStep d s i).trace.countP isReset =
      (if batchAtPropagation s i = 0 then 0 else 1) ∧
    (batchAtPropagation s i ≠ 0 →
      [50, 51, 52, 53].Sublist ((viceStep d s i).trace.map phaseRank)) := by
  simp only [viceStep, propagationPhase, resolveDialogs, telemetryPhase, exitCheckPhase,
    batchAtPropagation]
  repeat' split
  all_goals simp_all [phaseRank, isReset]
  all_goals decide

/-- C4: starting from a connected session with no close attempt underway,
when a close is requested and the confirmation dialog is resolved yes on the
next frame, disconnect is called exactly once on the session, the session
ends up replaced by a fresh disconnected one, exactly one persistence write
(the prompt-to-save path) is performed over the whole run, and the loop
exits. -/
theorem confirm_yes_disconnects_persists_exits (d : Bool) (s : LoopState)
    (i1 i2 : FrameInput)
    (hc : s.connected = true) (hw : s.wantExit = false) (hs : s.shouldStop = false)
    (hd : s.activeModalDialogs = 0)
    (h1 : i1.closeRequested = true) (h2 : i2.dialogChoice = some true) :
    (viceRun d s [i1, i2]).exited = true ∧
    (viceRun d s [i1, i2]).final.connected = false ∧
    (viceRun d s [i1, i2]).trace.countP isDisconnect = 1 ∧
    (viceRun d s [i1, i2]).trace.countP isPrompt = 1 := by
  obtain ⟨he1, hc1, hw1, hs1, hd1, hcf1, hp1, hsd1, hdis1, -, -, -⟩ :=
    step_firstClose d s i1 hw hd (by simp [hs, h1])
  obtain ⟨he2, hc2, hdis2, hp2, hsd2⟩ :=
    step_resolveYes d (viceStep d s i1).state i2 hw1 (by simp [hd1, hc]) hs1 h2
  simp [viceRun, he1, he2, List.countP_append, hp1, hp2, hdis1, hdis2, hc2]

/-- Witness for C4 at a concrete connected state and a concrete
close-then-yes input sequence. -/
theorem confirm_yes_disconnects_persists_exits_witness :
    (viceRun false ⟨true, false, false, 0, 0, 0, ⟨0, 0, 0⟩⟩
        [⟨true, 0, 0, none, 1, 2, 3⟩, ⟨false, 0, 0, some true, 4, 5, 6⟩]).exited = true ∧
    (viceRun false ⟨true, false, false, 0, 0, 0, ⟨0, 0, 0⟩⟩
        [⟨true, 0, 0, none, 1, 2, 3⟩, ⟨false, 0, 0, some true, 4, 5, 6⟩]).final.connected = false ∧
    (viceRun false ⟨true, false, false, 0, 0, 0, ⟨0, 0, 0⟩⟩
        [⟨true, 0, 0, none, 1, 2, 3⟩, ⟨false, 0, 0, some true, 4, 5, 6⟩]).trace.countP isDisconnect = 1 ∧
    (viceRun false ⟨true, false, false, 0, 0, 0, ⟨0, 0, 0⟩⟩
        [⟨true, 0, 0, none, 1, 2, 3⟩, ⟨false, 0, 0, some true, 4, 5, 6⟩]).trace.countP isPrompt = 1 :=
  confirm_yes_disconnects_persists_exits false ⟨true, false, false, 0, 0, 0, ⟨0, 0, 0⟩⟩
    ⟨true, 0, 0, none, 1, 2, 3⟩ ⟨false, 0, 0, some true, 4, 5, 6⟩
    rfl rfl rfl rfl rfl rfl

/-- C5 counterexample: the claim says a close attempt resolved no leaves no
residual side effects on configuration and performs no persistence; but in a
concrete run the cancelled attempt has already invoked the prompt-to-save
persistence path once and overwritten the stored configuration before the
dialog was resolved, even though the close was duly cancelled (flags cleared,
session still connected). -/
theorem confirm_no_persistence_cex :
    (viceRun false ⟨true, false, false, 0, 0, 0, ⟨0, 0, 0⟩⟩
        [⟨true, 0, 0, none, 1, 2, 3⟩, ⟨false, 0, 0, some false, 7, 8, 9⟩]).final.wantExit = false ∧
    (viceRun false ⟨true, false, false, 0, 0, 0, ⟨0, 0, 0⟩⟩
        [⟨true, 0, 0, none, 1, 2, 3⟩, ⟨false, 0, 0, some false, 7, 8, 9⟩]).final.shouldStop = false ∧
    (viceRun false ⟨true, false, false, 0, 0, 0, ⟨0, 0, 0⟩⟩
        [⟨true, 0, 0, none, 1, 2, 3⟩, ⟨false, 0, 0, some false, 7, 8, 9⟩]).final.connected = true ∧
    ¬ ((viceRun false ⟨true, false, false, 0, 0, 0, ⟨0, 0, 0⟩⟩
        [⟨true, 0, 0, none, 1, 2, 3⟩, ⟨false, 0, 0, some false, 7, 8, 9⟩]).trace.countP isPrompt = 0) ∧
    ¬ ((viceRun false ⟨true, false, false, 0, 0, 0, ⟨0, 0, 0⟩⟩
        [⟨true, 0, 0, none, 1, 2, 3⟩, ⟨false, 0, 0, some false, 7, 8, 9⟩]).final.config = ⟨0, 0, 0⟩) := by
  decide

/-- C5 (amended): when the close-confirmation dialog is resolved no, the
windowing collaborator's close signal is cancelled and the system returns to
running with the close-requested flag cleared, the session untouched and no
disconnect; however the close-request frame has already overwritten the
stored UI settings and window geometry with the current values and invoked
the prompt-to-save persistence path once, so the cancelled attempt is not
free of configuration side effects. -/
theorem confirm_no_cancels_after_side_effects (d : Bool) (s : LoopState)
    (i1 i2 : FrameInput)
    (hc : s.connected = true) (hw : s.wantExit = false) (hs : s.shouldStop = false)
    (hd : s.activeModalDialogs = 0)
    (h1 : i1.closeRequested = true) (h2 : i2.dialogChoice = some false) :
    (viceRun d s [i1, i2]).exited = false ∧
    (viceRun d s [i1, i2]).final.connected = true ∧
    (viceRun d s [i1, i2]).final.wantExit = false ∧
    (viceRun d s [i1, i2]).final.shouldStop = false ∧
    (viceRun d s [i1, i2]).final.activeModalDialogs = 0 ∧
    Event.cancelShouldStop ∈ (viceRun d s [i1, i2]).trace ∧
    (viceRun d s [i1, i2]).trace.countP isDisconnect = 0 ∧
    (viceRun d s [i1, i2]).trace.countP isPrompt = 1 ∧
    (viceRun d s [i1, i2]).final.config =
      ⟨i1.curImGuiSettings, i1.curWindowSize, i1.curWindowPosition⟩ := by
  obtain ⟨he1, hc1, hw1, hs1, hd1, hcf1, hp1, hsd1, hdis1, -, -, -⟩ :=
    step_firstClose d s i1 hw hd (by simp [hs, h1])
  obtain ⟨he2, hc2, hw2, hs2, hd2, hcf2, hp2, hdis2, hsd2, hcan2⟩ :=
    step_resolveNo d (viceStep d s i1).state i2 (by simp [hd1, hc]) h2
  simp [viceRun, he1, he2, List.countP_append, hp1, hp2, hdis1, hdis2,
    hc2, hc1, hc, hw2, hs2, hd2, hcf2, hcf1, hcan2]

/-- Witness for C5's amended claim at a concrete connected state and a
concrete close-then-no input sequence. -/
theorem confirm_no_cancels_after_side_effects_witness :
    (viceRun false ⟨true, false, false, 0, 0, 0, ⟨0, 0, 0⟩⟩
        [⟨true, 0, 0, none, 1, 2, 3⟩, ⟨false, 0, 0, some false, 7, 8, 9⟩]).exited = false ∧
    (viceRun false ⟨true, false, false, 0, 0, 0, ⟨0, 0, 0⟩⟩
        [⟨true, 0, 0, none, 1, 2, 3⟩, ⟨false, 0, 0, some false, 7, 8, 9⟩]).final.connected = true ∧
    (viceRun false ⟨true, false, false, 0, 0, 0, ⟨0, 0, 0⟩⟩
        [⟨true, 0, 0, none, 1, 2, 3⟩, ⟨false, 0, 0, some false, 7, 8, 9⟩]).final.wantExit = false ∧
    (viceRun false ⟨true, false, false, 0, 0, 0, ⟨0, 0, 0⟩⟩
        [⟨true, 0, 0, none, 1, 2, 3⟩, ⟨false, 0, 0, some false, 7, 8, 9⟩]).final.shouldStop = false ∧
    (viceRun false ⟨true, false, false, 0, 0, 0, ⟨0, 0, 0⟩⟩
        [⟨true, 0, 0, none, 1, 2, 3⟩, ⟨false, 0, 0, some false, 7, 8, 9⟩]).final.activeModalDialogs = 0 ∧
    Event.cancelShouldStop ∈ (viceRun false ⟨true, false, false, 0, 0, 0, ⟨0, 0, 0⟩⟩
        [⟨true, 0, 0, none, 1, 2, 3⟩, ⟨false, 0, 0, some false, 7, 8, 9⟩]).trace ∧
    (viceRun false ⟨true, false, false, 0, 0, 0, ⟨0, 0, 0⟩⟩
        [⟨true, 0, 0, none, 1, 2, 3⟩, ⟨false, 0, 0, some false, 7, 8, 9⟩]).trace.countP isDisconnect = 0 ∧
    (viceRun false ⟨true, false, false, 0, 0, 0, ⟨0, 0, 0⟩⟩
        [⟨true, 0, 0, none, 1, 2, 3⟩, ⟨false, 0, 0, some false, 7, 8, 9⟩]).trace.countP isPrompt = 1 ∧
    (viceRun false ⟨true, false, false, 0, 0, 0, ⟨0, 0, 0⟩⟩
        [⟨true, 0, 0, none, 1, 2, 3⟩, ⟨false, 0, 0, some false, 7, 8, 9⟩]).final.config = ⟨1, 2, 3⟩ :=
  confirm_no_cancels_after_side_effects false ⟨true, false, false, 0, 0, 0, ⟨0, 0, 0⟩⟩
    ⟨true, 0, 0, none, 1, 2, 3⟩ ⟨false, 0, 0, some false, 7, 8, 9⟩
    rfl rfl rfl rfl rfl rfl

/-- C6: when a close request is observed while the session is disconnected,
the loop moves to termination without ever opening a confirmation dialog:
over the whole run no dialog-creation call appears, the prompt-to-save
persistence path is invoked exactly once, and the loop exits. -/
theorem disconnected_close_no_dialog_exits (d : Bool) (s : LoopState)
    (i1 i2 : FrameInput)
    (hc : s.connected = false) (hw : s.wantExit = false) (hs : s.shouldStop = false)
    (hd : s.activeModalDialogs = 0)
    (h1 : i1.closeRequested = true) :
    (viceRun d s [i1, i2]).exited = true ∧
    (viceRun d s [i1, i2]).trace.countP isShowDialog = 0 ∧
    (viceRun d s [i1, i2]).trace.countP isPrompt = 1 := by
  obtain ⟨he1, hc1, hw1, hs1, hd1, hcf1, hp1, hsd1, hdis1, -, -, -⟩ :=
    step_firstClose d s i1 hw hd (by simp [hs, h1])
  obtain ⟨he2, hp2, hsd2, hdis2⟩ :=
    step_exitFrame d (viceStep d s i1).state i2 hw1 hs1 (by simp [hd1, hc])
  simp [viceRun, he1, he2, List.countP_append, hp1, hp2, hsd1, hsd2, hc]

/-- Witness for C6 at a concrete disconnected state and a concrete
close-request input. -/
theorem disconnected_close_no_dialog_exits_witness :
    (viceRun false ⟨false, false, false, 0, 0, 0, ⟨0, 0, 0⟩⟩
        [⟨true, 0, 0, none, 1, 2, 3⟩, ⟨false, 0, 0, none, 0, 0, 0⟩]).exited = true ∧
    (viceRun false ⟨false, false, false, 0, 0, 0, ⟨0, 0, 0⟩⟩
        [⟨true, 0, 0, none, 1, 2, 3⟩, ⟨false, 0, 0, none, 0, 0, 0⟩]).trace.countP isShowDialog = 0 ∧
    (viceRun false ⟨false, false, false, 0, 0, 0, ⟨0, 0, 0⟩⟩
        [⟨true, 0, 0, none, 1, 2, 3⟩, ⟨false, 0, 0, none, 0, 0, 0⟩]).trace.countP isPrompt = 1 :=
  disconnected_close_no_dialog_exits false ⟨false, false, false, 0, 0, 0, ⟨0, 0, 0⟩⟩
    ⟨true, 0, 0, none, 1, 2, 3⟩ ⟨false, 0, 0, none, 0, 0, 0⟩
    rfl rfl rfl rfl rfl

/-- C7: the disconnect-confirmation dialog is created at most once per close
attempt.  In any single iteration at most one dialog-creation call appears;
an iteration that begins with a close attempt already underway (the
close-requested flag observed, `wantExit` set) creates none; and in a
concrete-shape run in which a close is requested and the dialog then stays
unresolved for further iterations while the platform flag remains set,
exactly one dialog is created over the whole run and the loop keeps
going. -/
theorem dialog_created_at_most_once_per_attempt (d : Bool) (s : LoopState)
    (i1 i2 i3 : FrameInput)
    (hc : s.connected = true) (hw : s.wantExit = false) (hs : s.shouldStop = false)
    (hd : s.activeModalDialogs = 0)
    (h1 : i1.closeRequested = true) (h2 : i2.dialogChoice = none)
    (h3 : i3.dialogChoice = none) :
    (∀ (d' : Bool) (s' : LoopState) (i' : FrameInput),
      (viceStep d' s' i').trace.countP isShowDialog ≤ 1) ∧
    (∀ (d' : Bool) (s' : LoopState) (i' : FrameInput), s'.wantExit = true →
      (viceStep d' s' i').trace.countP isShowDialog = 0) ∧
    (viceRun d s [i1, i2, i3]).trace.countP isShowDialog = 1 ∧
    (viceRun d s [i1, i2, i3]).exited = false := by
  obtain ⟨he1, hc1, hw1, hs1, hd1, hcf1, hp1, hsd1, hdis1, -, -, -⟩ :=
    step_firstClose d s i1 hw hd (by simp [hs, h1])
  obtain ⟨he2, hc2, hw2, hd2, hs2, hcf2, hsd2, hp2, hdis2⟩ :=
    step_pending d (viceStep d s i1).state i2 hw1 (by simp [hd1, hc]) h2
  obtain ⟨he3, hc3, hw3, hd3, hs3, hcf3, hsd3, hp3, hdis3⟩ :=
    step_pending d (viceStep d (viceStep d s i1).state i2).state i3 hw2
      (by simp [hd2, hd1, hc]) h3
  refine ⟨step_showDialog_le_one, step_pendingAttempt_noDialog, ?_⟩
  simp [viceRun, he1, he2, he3, List.countP_append, hsd1, hsd2, hsd3, hc]

/-- Witness for C7 at a concrete connected state with a close request
followed by two frames in which the dialog stays open. -/
theorem dialog_created_at_most_once_per_attempt_witness :
    (viceRun false ⟨true, false, false, 0, 0, 0, ⟨0, 0, 0⟩⟩
        [⟨true, 0, 0, none, 1, 2, 3⟩, ⟨false, 4, 0, none, 0, 0, 0⟩,
          ⟨false, 0, 0, none, 0, 0, 0⟩]).trace.countP isShowDialog = 1 ∧
    (viceRun false ⟨true, false, false, 0, 0, 0, ⟨0, 0, 0⟩⟩
        [⟨true, 0, 0, none, 1, 2, 3⟩, ⟨false, 4, 0, none, 0, 0, 0⟩,
          ⟨false, 0, 0, none, 0, 0, 0⟩]).exited = false :=
  (dialog_created_at_most_once_per_attempt false ⟨true, false, false, 0, 0, 0, ⟨0, 0, 0⟩⟩
    ⟨true, 0, 0, none, 1, 2, 3⟩ ⟨false, 4, 0, none, 0, 0, 0⟩ ⟨false, 0, 0, none, 0, 0, 0⟩
    rfl rfl rfl rfl rfl rfl rfl).2.2

/-- C8 counterexample: the claim says that while the disconnect confirmation
is pending the loop never pulls network updates or applies update batches;
but in a concrete iteration whose state is exactly that (close requested,
`wantExit` set, the confirmation dialog open and unresolved) the loop still
calls `server.GetUpdates()` and still hands a non-empty batch to all three
consumers. -/
theorem confirm_pending_not_modal_cex :
    (viceStep false ⟨true, true, true, 1, 3, 0, ⟨0, 0, 0⟩⟩
        ⟨false, 2, 0, none, 0, 0, 0⟩).exits = false ∧
    Event.getUpdates ∈ (viceStep false ⟨true, true, true, 1, 3, 0, ⟨0, 0, 0⟩⟩
        ⟨false, 2, 0, none, 0, 0, 0⟩).trace ∧
    ¬ ((viceStep false ⟨true, true, true, 1, 3, 0, ⟨0, 0, 0⟩⟩
        ⟨false, 2, 0, none, 0, 0, 0⟩).trace.countP isConsumerCall = 0) := by
  decide

/-- C8 (amended): while the disconnect confirmation is pending the loop does
continue to render and poll input and does not exit, but it is not a modal
gate on the rest of the frame: every such iteration still pulls network
updates, still applies the update batch to all three consumers whenever it
is non-empty, and leaves the dialog pending; only the final break is
deferred until the dialog is resolved. -/
theorem confirm_pending_loop_continues (d : Bool) (s : LoopState) (i : FrameInput)
    (hw : s.wantExit = true) (hdl : s.activeModalDialogs ≠ 0)
    (hch : i.dialogChoice = none) :
    (viceStep d s i).exits = false ∧
    Event.processEvents ∈ (viceStep d s i).trace ∧
    Event.getUpdates ∈ (viceStep d s i).trace ∧
    Event.drawUI ∈ (viceStep d s i).trace ∧
    Event.postRender ∈ (viceStep d s i).trace ∧
    (viceStep d s i).trace.countP isConsumerCall =
      (if batchAtPropagation s i = 0 then 0 else 3) ∧
    (viceStep d s i).state.activeModalDialogs = s.activeModalDialogs := by
  obtain ⟨he, hcn, hwx, hdg, hsp, hcf, hsd, hpr, hdc⟩ := step_pending d s i hw hdl hch
  obtain ⟨ha1, ha2, ha3, ha4⟩ := step_always_events d s i
  exact ⟨he, ha1, ha2, ha3, ha4, step_consumer_count d s i, hdg⟩

/-- Witness for C8's amended claim at a concrete pending-confirmation state
with a non-empty batch. -/
theorem confirm_pending_loop_continues_witness :
    (viceStep false ⟨true, true, true, 1, 3, 0, ⟨0, 0, 0⟩⟩
        ⟨false, 2, 0, none, 0, 0, 0⟩).exits = false ∧
    Event.processEvents ∈ (viceStep false ⟨true, true, true, 1, 3, 0, ⟨0, 0, 0⟩⟩
        ⟨false, 2, 0, none, 0, 0, 0⟩).trace ∧
    Event.getUpdates ∈ (viceStep false ⟨true, true, true, 1, 3, 0, ⟨0, 0, 0⟩⟩
        ⟨false, 2, 0, none, 0, 0, 0⟩).trace ∧
    Event.drawUI ∈ (viceStep false ⟨true, true, true, 1, 3, 0, ⟨0, 0, 0⟩⟩
        ⟨false, 2, 0, none, 0, 0, 0⟩).trace ∧
    Event.postRender ∈ (viceStep false ⟨true, true, true, 1, 3, 0, ⟨0, 0, 0⟩⟩
        ⟨false, 2, 0, none, 0, 0, 0⟩).trace ∧
    (viceStep false ⟨true, true, true, 1, 3, 0, ⟨0, 0, 0⟩⟩
        ⟨false, 2, 0, none, 0, 0, 0⟩).trace.countP isConsumerCall =
      (if batchAtPropagation ⟨true, true, true, 1, 3, 0, ⟨0, 0, 0⟩⟩
          ⟨false, 2, 0, none, 0, 0, 0⟩ = 0 then 0 else 3) ∧
    (viceStep false ⟨true, true, true, 1, 3, 0, ⟨0, 0, 0⟩⟩
        ⟨false, 2, 0, none, 0, 0, 0⟩).state.activeModalDialogs = 1 :=
  confirm_pending_loop_continues false ⟨true, true, true, 1, 3, 0, ⟨0, 0, 0⟩⟩
    ⟨false, 2, 0, none, 0, 0, 0⟩ rfl (by decide) rfl

/-- C10: on the iteration in which a close request is first observed, before
any confirmation dialog is resolved and whether or not the session is
connected, the loop overwrites the stored ImGui settings, initial window
size and initial window position of the global configuration with the
current values and invokes the prompt-to-save persistence path exactly once.
The statement assumes nothing about the session flag and nothing about how a
dialog is later resolved, so these side effects stand even when the close
attempt is afterwards cancelled by resolving no (see the run of the C5
theorems, whose first frame is an instance of this statement). -/
theorem close_request_overwrites_config (d : Bool) (s : LoopState) (i : FrameInput)
    (hw : s.wantExit = false) (hd : s.activeModalDialogs = 0)
    (hstop : (s.shouldStop || i.closeRequested) = true) :
    (viceStep d s i).trace.countP isPrompt = 1 ∧
    Event.saveImGuiSettings ∈ (viceStep d s i).trace ∧
    Event.saveWindowSize ∈ (viceStep d s i).trace ∧
    Event.saveWindowPosition ∈ (viceStep d s i).trace ∧
    (viceStep d s i).state.config =
      ⟨i.curImGuiSettings, i.curWindowSize, i.curWindowPosition⟩ := by
  obtain ⟨-, -, -, -, -, hcf, hp, -, -, hm1, hm2, hm3⟩ := step_firstClose d s i hw hd hstop
  exact ⟨hp, hm1, hm2, hm3, hcf⟩

/-- Witness for C10 at a concrete disconnected state whose platform flag is
already set, showing the configuration side effects need no connected
session. -/
theorem close_request_overwrites_config_witness :
    (viceStep false ⟨false, false, true, 0, 0, 0, ⟨9, 9, 9⟩⟩
        ⟨false, 0, 0, none, 4, 5, 6⟩).trace.countP isPrompt = 1 ∧
    Event.saveImGuiSettings ∈ (viceStep false ⟨false, false, true, 0, 0, 0, ⟨9, 9, 9⟩⟩
        ⟨false, 0, 0, none, 4, 5, 6⟩).trace ∧
    Event.saveWindowSize ∈ (viceStep false ⟨false, false, true, 0, 0, 0, ⟨9, 9, 9⟩⟩
        ⟨false, 0, 0, none, 4, 5, 6⟩).trace ∧
    Event.saveWindowPosition ∈ (viceStep false ⟨false, false, true, 0, 0, 0, ⟨9, 9, 9⟩⟩
        ⟨false, 0, 0, none, 4, 5, 6⟩).trace ∧
    (viceStep false ⟨false, false, true, 0, 0, 0, ⟨9, 9, 9⟩⟩
        ⟨false, 0, 0, none, 4, 5, 6⟩).state.config = ⟨4, 5, 6⟩ :=
  close_request_overwrites_config false ⟨false, false, true, 0, 0, 0, ⟨9, 9, 9⟩⟩
    ⟨false, 0, 0, none, 4, 5, 6⟩ rfl rfl rfl

end Vice
